import Mathlib

/-!
Verification development for the PDFExtractCombiner repository (src/main.py).

The Python source is shallowly embedded below: pure computations become Lean
functions, the filesystem becomes an explicit map from paths to page lists,
the pypdf writer state becomes an accumulator threaded through recursion, and
Python exceptions become Except results.  The external Excel COM host is
modelled by an explicit event trace (acquire, open, render, close, quit) so
that resource-lifecycle properties of win_xlsx_to_pdf can be stated.
-/

namespace PDFExtractCombiner

/-- CPython slice-bound clamping for a positive step, as used by
slice.indices(n) (and hence by pypdf.PageRange.indices): a negative bound is
offset by the length and then clamped below at 0; a non-negative bound is
clamped above at n.  The result always lies in [0, n]. -/
def sliceClamp (b : Int) (n : Nat) : Nat :=
  if b < 0 then (b + n).toNat else min b.toNat n

/-- pypdf.PageRange restricted to a start/stop slice with step 1, which is the
only form main.py constructs (":3", "3:5", ":1"). -/
structure PageRange where
  start? : Option Int
  stop? : Option Int
deriving DecidableEq, Repr

/-- First component of slice.indices(n) for step 1: absent start is 0. -/
def PageRange.startIndex (r : PageRange) (n : Nat) : Nat :=
  match r.start? with
  | none => 0
  | some s => sliceClamp s n

/-- Second component of slice.indices(n) for step 1: absent stop is n. -/
def PageRange.stopIndex (r : PageRange) (n : Nat) : Nat :=
  match r.stop? with
  | none => n
  | some e => sliceClamp e n

/-- range(*page_range.indices(n)): the concrete 0-based index sequence a
PageRange selects out of a source with n items (main.py lines 130, 195). -/
def PageRange.resolve (r : PageRange) (n : Nat) : List Nat :=
  List.range' (r.startIndex n) (r.stopIndex n - r.startIndex n)

/-- The indices selected by a list of PageRanges, resolved independently and
concatenated in list order (the nested for loops of main.py). -/
def resolveAll (ranges : List PageRange) (n : Nat) : List Nat :=
  ranges.flatMap (fun r => r.resolve n)

/-- A page of a document, identified by its content. -/
abbrev Page := String

/-- The filesystem seen by the merger: a path either holds a parseable
document (its list of pages) or cannot be opened/parsed as a valid document. -/
abbrev FileSystem := String → Option (List Page)

/-- Error raised by pypdf when PdfWriter.append cannot open or parse a
source document; it surfaces the offending path. -/
def openErrorMsg (path : String) : String :=
  "could not open or parse source: " ++ path

/-- One pypdf PdfWriter.append call: with no page range the whole source is
appended, with a range the selected pages are appended (main.py lines 56-58).
The writer state is the accumulated page list. -/
def writerAppend (fs : FileSystem) (acc : List Page) (path : String)
    (r? : Option PageRange) : Except String (List Page) :=
  match fs path with
  | none => .error (openErrorMsg path)
  | some doc =>
    match r? with
    | none => .ok (acc ++ doc)
    | some r => .ok (acc ++ (r.resolve doc.length).map (fun i => doc.getD i ""))

/-- The inner loop of pdf_merge: append one source once per page range
(main.py lines 55-56). -/
def appendRangesLoop (fs : FileSystem) (path : String) :
    List PageRange → List Page → Except String (List Page)
  | [], acc => .ok acc
  | r :: rest, acc =>
    match writerAppend fs acc path (some r) with
    | .error e => .error e
    | .ok acc2 => appendRangesLoop fs path rest acc2

/-- One iteration of pdf_merge's outer loop over a source: a non-empty range
list appends once per range, an empty list appends the entire source
(main.py lines 54-58). -/
def appendSource (fs : FileSystem) (acc : List Page) (path : String)
    (ranges : List PageRange) : Except String (List Page) :=
  if ranges.length > 0 then
    appendRangesLoop fs path ranges acc
  else
    writerAppend fs acc path none

/-- The outer loop of pdf_merge over pdfs.items(), in dict insertion order
(main.py lines 53-58). -/
def mergeSourcesLoop (fs : FileSystem) :
    List (String × List PageRange) → List Page → Except String (List Page)
  | [], acc => .ok acc
  | (path, ranges) :: rest, acc =>
    match appendSource fs acc path ranges with
    | .error e => .error e
    | .ok acc2 => mergeSourcesLoop fs rest acc2

/-- pdf_merge (main.py lines 43-61): append every source into the writer
state, then write the accumulated pages to output_path.  The write happens
only after every append succeeded, so an exception leaves no artifact; the
result records the writes performed: one (path, pages) artifact on success. -/
def pdf_merge (fs : FileSystem) (output_path : String)
    (pdfs : List (String × List PageRange)) :
    Except String (List (String × List Page)) :=
  match mergeSourcesLoop fs pdfs [] with
  | .error e => .error e
  | .ok pages => .ok [(output_path, pages)]

/-- The on-disk artifacts a finished pdf_merge call left behind: none when it
raised, exactly its writes when it returned. -/
def writesOf : Except String (List (String × List Page)) → List (String × List Page)
  | .error _ => []
  | .ok ws => ws

/-- The pages a single PageRange extracts from a document. -/
def extractPages (doc : List Page) (r : PageRange) : List Page :=
  (r.resolve doc.length).map (fun i => doc.getD i "")

/-- Declarative description of one source's contribution to a merge: the
whole document when its range list is empty, otherwise the ranges resolved
and concatenated in list order. -/
def sourcePages (fs : FileSystem) (path : String) (ranges : List PageRange) :
    List Page :=
  match fs path with
  | none => []
  | some doc =>
    if ranges.length > 0 then ranges.flatMap (extractPages doc) else doc

/-- Declarative description of a whole merge plan's output pages: source
contributions concatenated in plan order. -/
def planPages (fs : FileSystem) (plan : List (String × List PageRange)) :
    List Page :=
  plan.flatMap (fun pr => sourcePages fs pr.1 pr.2)

/-- Observable operations win_xlsx_to_pdf performs on the Excel COM host, in
order: dispatching an instance, setting Visible / DisplayAlerts, opening the
workbook, requesting a sheet render via workbook.Worksheets(k).SaveAs (k is
the index passed to the host), closing the workbook, and Quit. -/
inductive HostEvent where
  | acquire
  | setVisible (b : Bool)
  | setDisplayAlerts (b : Bool)
  | openWorkbook (path : String)
  | renderSheet (hostIndex : Nat)
  | closeWorkbook
  | quit
deriving DecidableEq, Repr

/-- Behaviour of the external Excel host for one conversion: the sheet count
the spreadsheet reports (via pd.ExcelFile), and which COM calls raise
com_error: dispatching, Workbooks.Open, and SaveAs at given host (1-based)
sheet indices. -/
structure Host where
  nSheets : Nat
  acquireFails : Bool
  openFails : Bool
  renderFails : List Nat
deriving DecidableEq, Repr

/-- The sheet-render loop of win_xlsx_to_pdf (main.py lines 129-145) over the
already-resolved 0-based sheet indices: each index i is requested from the
host as i + 1 (main.py line 134); a com_error from SaveAs stops the loop.
Returns the render events and whether the loop finished without error. -/
def renderSheetsLoop (renderFails : List Nat) : List Nat → List HostEvent × Bool
  | [] => ([], true)
  | i :: rest =>
    if (i + 1) ∈ renderFails then ([HostEvent.renderSheet (i + 1)], false)
    else
      let tail := renderSheetsLoop renderFails rest
      (HostEvent.renderSheet (i + 1) :: tail.1, tail.2)

/-- Error message raised when EnsureDispatch fails (main.py lines 90-92). -/
def dispatchErrorMsg : String := "Failed to dispatch Excel.Application"

/-- Domain error translated from a com_error raised by Workbooks.Open
(main.py lines 148-159). -/
def openWorkbookErrorMsg : String := "Excel failed: could not open workbook"

/-- Domain error translated from a com_error raised by Worksheet.SaveAs
(main.py lines 148-159). -/
def saveSheetErrorMsg : String := "Excel failed: could not save sheet"

/-- Path of the converted artifact win_xlsx_to_pdf returns (main.py 104-107). -/
def convOutputPath (xlsx : String) : String := xlsx ++ "_Extracted.pdf"

/-- The single page of the per-sheet file the host renders for host (1-based)
sheet index k of a spreadsheet. -/
def sheetPage (xlsx : String) (k : Nat) : String :=
  xlsx ++ "#sheet" ++ toString k

/-- Pages of the converted artifact: the all-pages merge (main.py line 147)
of the rendered one-page per-sheet files, in sheet order, so one page per
rendered sheet, keyed here by the host index each sheet was requested as. -/
def convertedPages (xlsx : String) (hostIndices : List Nat) : List Page :=
  hostIndices.map (sheetPage xlsx)

/-- win_xlsx_to_pdf (main.py lines 97-178) as a host-event trace plus result.
Control flow of the source: an externally supplied instance is used as-is and
never dispatched or Quit; otherwise one is dispatched (a dispatch failure
leaves nothing to clean up).  Visible and DisplayAlerts are set to False, the
workbook is opened, each resolved 0-based sheet index i is rendered as host
index i + 1, and the per-sheet files are merged.  The finally block (lines
160-169) runs on success and on com_error alike: it closes the workbook when
one was opened, sets DisplayAlerts to False, and Quits only an instance the
call itself dispatched.  A com_error is translated and re-raised (lines
148-159). -/
def win_xlsx_to_pdf (h : Host) (xlsx : String) (page_ranges : List PageRange)
    (useExternalInstance : Bool) :
    List HostEvent × Except String (String × List Page) :=
  if !useExternalInstance && h.acquireFails then
    ([], .error dispatchErrorMsg)
  else
    let acq : List HostEvent :=
      if useExternalInstance then [] else [HostEvent.acquire]
    let quitPart : List HostEvent :=
      if useExternalInstance then [] else [HostEvent.quit]
    let pre := acq ++ [HostEvent.setVisible false, HostEvent.setDisplayAlerts false]
    if h.openFails then
      (pre ++ [HostEvent.setDisplayAlerts false] ++ quitPart,
       .error openWorkbookErrorMsg)
    else
      let resolved := resolveAll page_ranges h.nSheets
      let rendered := renderSheetsLoop h.renderFails resolved
      (pre ++ [HostEvent.openWorkbook xlsx] ++ rendered.1 ++
         [HostEvent.closeWorkbook, HostEvent.setDisplayAlerts false] ++ quitPart,
       if rendered.2 then
         .ok (convOutputPath xlsx,
              convertedPages xlsx (resolved.map (fun i => i + 1)))
       else .error saveSheetErrorMsg)

/-- The host sheet indices a trace actually requested renders for. -/
def renderedRequests (t : List HostEvent) : List Nat :=
  t.filterMap (fun e =>
    match e with
    | HostEvent.renderSheet k => some k
    | _ => none)

/-- A file found by the directory scan: its containing directory and its stem
(Path.stem, the filename without extension). -/
structure SrcFile where
  dir : String
  stem : String
deriving DecidableEq, Repr

/-- Full path of a scanned file, given its extension. -/
def SrcFile.withExt (f : SrcFile) (ext : String) : String :=
  f.dir ++ "/" ++ f.stem ++ ext

/-- The stems of a list of scanned files. -/
def stemsOf (files : List SrcFile) : List String :=
  files.map SrcFile.stem

/-- Final value a Python dict comprehension of the form
\x7bpath.stem: path for path in files\x7d associates to a stem: the last file
listed with that stem. -/
def lastWithStem (files : List SrcFile) (s : String) : Option SrcFile :=
  files.reverse.find? (fun f => f.stem == s)

/-- pdf_names.intersection(xlsx_names) (main.py line 284), as the distinct
pdf stems that also occur among the xlsx stems. -/
def stemIntersection (pdfs xlsxs : List SrcFile) : List String :=
  (stemsOf pdfs).dedup.filter (fun s => (stemsOf xlsxs).contains s)

/-- pdf_names.symmetric_difference(xlsx_names) (main.py line 285): stems
present in exactly one of the two groups. -/
def stemSymmDiff (pdfs xlsxs : List SrcFile) : List String :=
  (stemsOf pdfs).dedup.filter (fun s => !(stemsOf xlsxs).contains s) ++
    (stemsOf xlsxs).dedup.filter (fun s => !(stemsOf pdfs).contains s)

/-- One iteration of the pairing loop (main.py lines 287-289):
mapped_pdfs[name] paired with mapped_xlsx[name]. -/
def pairForStem (pdfs xlsxs : List SrcFile) (s : String) :
    Option (SrcFile × SrcFile) :=
  match lastWithStem pdfs s, lastWithStem xlsxs s with
  | some d, some x => some (d, x)
  | _, _ => none

/-- gather_xlsx_pdf_pairs (main.py lines 271-291): build stem-keyed dicts of
both groups; when either dict lost entries to a duplicate stem, raise
DuplicateFileNames (the dict is strictly shorter than the file list exactly
when two files share a stem).  Otherwise pair the stem intersection and
report the symmetric difference of the stem sets. -/
def gather_xlsx_pdf_pairs (pdfs xlsxs : List SrcFile) :
    Except Unit (List (SrcFile × SrcFile) × List String) :=
  if pdfs.length != (stemsOf pdfs).dedup.length ||
      xlsxs.length != (stemsOf xlsxs).dedup.length then
    .error ()
  else
    .ok ((stemIntersection pdfs xlsxs).filterMap (pairForStem pdfs xlsxs),
      stemSymmDiff pdfs xlsxs)

/-- The DISALLOW_ZERO_PAGE_PDF_MERGE feature flag (main.py line 25). -/
def DISALLOW_ZERO_PAGE_PDF_MERGE : Bool := true

/-- check_do_not_merge_zero (main.py lines 354-363): true exactly when the
call exits the process (sys.exit before any merge), which happens when the
flag is set and at most zero files are to be merged. -/
def check_do_not_merge_zero (disallowZero : Bool) (nMerging : Int) : Bool :=
  disallowZero && decide (nMerging ≤ 0)

/-- The fixed pdf page selection pypdf.PageRange(":3") used by the
orchestrator (main.py line 433). -/
def DEFAULT_PDF_PAGES : List PageRange := [PageRange.mk none (some 3)]

/-- The fixed sheet selection pypdf.PageRange("3:5") used by the orchestrator
(main.py line 434). -/
def DEFAULT_XLSX_SHEETS : List PageRange := [PageRange.mk (some 3) (some 5)]

/-- Filesystem after a new document has been written at a path. -/
def updateFS (fs : FileSystem) (p : String) (doc : List Page) : FileSystem :=
  fun q => if q = p then some doc else fs q

/-- merge_pdf_xlsx (main.py lines 222-250) with USE_WIN32API: convert the
spreadsheet via win_xlsx_to_pdf, then merge the original pdf's selected pages
with all pages of the converted artifact; an exception from the conversion
propagates. -/
def merge_pdf_xlsx (fs : FileSystem) (h : Host)
    (output_path pdf xlsx : String)
    (pdf_pages xlsx_sheets : List PageRange) (useExternalInstance : Bool) :
    Except String (List (String × List Page)) :=
  match (win_xlsx_to_pdf h xlsx xlsx_sheets useExternalInstance).2 with
  | .error e => .error e
  | .ok (convertedPath, convertedDoc) =>
    pdf_merge (updateFS fs convertedPath convertedDoc) output_path
      [(pdf, pdf_pages), (convertedPath, [])]

/-- Output path of one pair's merged pdf (main.py line 428). -/
def outputPathFor (outputDir stem : String) : String :=
  outputDir ++ "/" ++ stem ++ "_Merged.pdf"

/-- The per-pair loop of mode_xlsx_pdf_combine (main.py lines 425-438): each
pair is converted and merged with the shared Excel instance, with no
try/except around the body, so an exception from merge_pdf_xlsx propagates
out of the loop at once.  Returns the spreadsheets whose conversion was
attempted, and either the per-pair output paths or the propagated error. -/
def runPairsLoop (fs : FileSystem) (hostFor : SrcFile → Host)
    (outputDir : String) :
    List (SrcFile × SrcFile) → List String × Except String (List String)
  | [] => ([], .ok [])
  | (d, x) :: rest =>
    let xPath := x.withExt ".xlsx"
    let outPath := outputPathFor outputDir d.stem
    match merge_pdf_xlsx fs (hostFor x) outPath (d.withExt ".pdf") xPath
        DEFAULT_PDF_PAGES DEFAULT_XLSX_SHEETS true with
    | .error e => ([xPath], .error e)
    | .ok _ =>
      let tail := runPairsLoop fs hostFor outputDir rest
      (xPath :: tail.1,
       match tail.2 with
       | .error e => .error e
       | .ok outs => .ok (outPath :: outs))

/-- How a run of mode_xlsx_pdf_combine ends. -/
inductive BatchOutcome where
  | exitedDuplicateNames
  | exitedZeroPairs
  | aborted (err : String)
  | completed (outputs : List String)
deriving DecidableEq, Repr

/-- mode_xlsx_pdf_combine (main.py lines 396-455), with the interactive
confirmations (out of scope) answered to proceed: gather pairs — a
DuplicateFileNames error exits before anything else happens (lines 397-404);
the zero-merge guard exits before any conversion (line 416); otherwise the
per-pair loop runs.  Returns the conversions attempted and the outcome. -/
def mode_xlsx_pdf_combine (fs : FileSystem) (hostFor : SrcFile → Host)
    (outputDir : String) (pdfs xlsxs : List SrcFile) :
    List String × BatchOutcome :=
  match gather_xlsx_pdf_pairs pdfs xlsxs with
  | .error _ => ([], BatchOutcome.exitedDuplicateNames)
  | .ok (pairs, _) =>
    if check_do_not_merge_zero DISALLOW_ZERO_PAGE_PDF_MERGE pairs.length then
      ([], BatchOutcome.exitedZeroPairs)
    else
      let run := runPairsLoop fs hostFor outputDir pairs
      (run.1,
       match run.2 with
       | .error e => BatchOutcome.aborted e
       | .ok outs => BatchOutcome.completed outs)

/-- A finite filesystem given as an association list of path/document pairs. -/
def mkFS (files : List (String × List Page)) : FileSystem :=
  fun q => (files.find? (fun pr => pr.1 == q)).map (fun pr => pr.2)

/-- A host with ten sheets and no failures. -/
def exHostGood : Host := Host.mk 10 false false []

/-- A host with ten sheets whose Workbooks.Open raises com_error. -/
def exHostOpenFails : Host := Host.mk 10 false true []

/-- Scanned file with stem A. -/
def exFileA : SrcFile := SrcFile.mk "w" "A"

/-- Scanned file with stem B. -/
def exFileB : SrcFile := SrcFile.mk "w" "B"

/-- Host assignment under which converting spreadsheet A fails (its workbook
cannot be opened) while every other conversion succeeds. -/
def exHostFor : SrcFile → Host :=
  fun f => if f.stem == "A" then exHostOpenFails else exHostGood

/-- Filesystem holding the two pdf halves of the example pairs. -/
def exFS : FileSystem :=
  mkFS [("w/A.pdf", ["a0", "a1", "a2", "a3"]), ("w/B.pdf", ["b0", "b1", "b2", "b3"])]

/-! Helper lemmas. -/

theorem sliceClamp_le (b : Int) (n : Nat) : sliceClamp b n ≤ n := by
  unfold sliceClamp
  split <;> omega

theorem startIndex_le (r : PageRange) (n : Nat) : r.startIndex n ≤ n := by
  unfold PageRange.startIndex
  cases r.start? with
  | none => exact Nat.zero_le n
  | some s => exact sliceClamp_le s n

theorem stopIndex_le (r : PageRange) (n : Nat) : r.stopIndex n ≤ n := by
  unfold PageRange.stopIndex
  cases r.stop? with
  | none => exact Nat.le_refl n
  | some e => exact sliceClamp_le e n

theorem appendRangesLoop_ok (fs : FileSystem) (path : String) (doc : List Page)
    (hfs : fs path = some doc) (rs : List PageRange) :
    ∀ acc, appendRangesLoop fs path rs acc =
      .ok (acc ++ rs.flatMap (extractPages doc)) := by
  induction rs with
  | nil => intro acc; simp [appendRangesLoop]
  | cons r rest ih =>
    intro acc
    simp only [appendRangesLoop, writerAppend, hfs]
    rw [ih]
    simp [extractPages]

theorem appendSource_ok (fs : FileSystem) (path : String) (doc : List Page)
    (hfs : fs path = some doc) (acc : List Page) (rs : List PageRange) :
    appendSource fs acc path rs = .ok (acc ++ sourcePages fs path rs) := by
  unfold appendSource sourcePages
  rw [hfs]
  cases rs with
  | nil => simp [writerAppend, hfs]
  | cons r rest => simp [appendRangesLoop_ok fs path doc hfs]

theorem appendSource_err (fs : FileSystem) (path : String)
    (hfs : fs path = none) (acc : List Page) (rs : List PageRange) :
    appendSource fs acc path rs = .error (openErrorMsg path) := by
  unfold appendSource
  cases rs with
  | nil => simp [writerAppend, hfs]
  | cons r rest => simp [appendRangesLoop, writerAppend, hfs]

theorem mergeSourcesLoop_ok (fs : FileSystem)
    (plan : List (String × List PageRange))
    (hread : ∀ pr ∈ plan, (fs pr.1).isSome) :
    ∀ acc, mergeSourcesLoop fs plan acc = .ok (acc ++ planPages fs plan) := by
  induction plan with
  | nil => intro acc; simp [mergeSourcesLoop, planPages]
  | cons hd rest ih =>
    intro acc
    obtain ⟨doc, hdoc⟩ := Option.isSome_iff_exists.mp (hread hd (List.mem_cons_self hd rest))
    obtain ⟨path, ranges⟩ := hd
    simp only [mergeSourcesLoop]
    rw [appendSource_ok fs path doc hdoc]
    show mergeSourcesLoop fs rest (acc ++ sourcePages fs path ranges) = _
    rw [ih (fun pr hpr => hread pr (List.mem_cons_of_mem _ hpr))]
    simp [planPages]

theorem mergeSourcesLoop_err (fs : FileSystem)
    (plan : List (String × List PageRange))
    (hbad : ∃ pr ∈ plan, fs pr.1 = none) :
    ∃ p, fs p = none ∧ p ∈ plan.map Prod.fst ∧
      ∀ acc, mergeSourcesLoop fs plan acc = .error (openErrorMsg p) := by
  induction plan with
  | nil => simp at hbad
  | cons hd rest ih =>
    obtain ⟨path, ranges⟩ := hd
    cases hq : fs path with
    | none =>
      refine ⟨path, hq, by simp, fun acc => ?_⟩
      simp only [mergeSourcesLoop]
      rw [appendSource_err fs path hq]
    | some doc =>
      have hrest : ∃ pr ∈ rest, fs pr.1 = none := by
        rcases hbad with ⟨pr, hpr, hnone⟩
        rcases List.mem_cons.mp hpr with heq | hmem
        · rw [heq] at hnone
          simp [hq] at hnone
        · exact ⟨pr, hmem, hnone⟩
      obtain ⟨p, hp, hmem, herr⟩ := ih hrest
      refine ⟨p, hp, by simp [List.mem_map] at hmem ⊢; exact Or.inr hmem, fun acc => ?_⟩
      simp only [mergeSourcesLoop]
      rw [appendSource_ok fs path doc hq]
      exact herr _

/-! Claim theorems. -/

/-- C4: for every PageRange resolved against a source of length n, both
clamped bounds land in [0, n] (clamping follows slice semantics: a negative
bound is offset by n first) and the resolved index sequence has length
max(0, clamp(end) - clamp(start)); the absent/"all" range resolves to exactly
0..n-1; start at or beyond end after clamping yields an empty sequence, with
every case (including n = 0) total, never an error. -/
theorem pageRange_resolution_spec (s e : Option Int) (n : Nat) :
    (PageRange.mk s e).startIndex n ≤ n ∧
    (PageRange.mk s e).stopIndex n ≤ n ∧
    (((PageRange.mk s e).resolve n).length : Int) =
      max 0 ((((PageRange.mk s e).stopIndex n : Int)) -
        (((PageRange.mk s e).startIndex n : Int))) ∧
    (PageRange.mk none none).resolve n = List.range n ∧
    ((PageRange.mk s e).stopIndex n ≤ (PageRange.mk s e).startIndex n →
      (PageRange.mk s e).resolve n = []) := by
  refine ⟨startIndex_le _ n, stopIndex_le _ n, ?_, ?_, ?_⟩
  · unfold PageRange.resolve
    rw [List.length_range']
    omega
  · unfold PageRange.resolve PageRange.startIndex PageRange.stopIndex
    simp [List.range_eq_range']
  · intro hle
    unfold PageRange.resolve
    rw [Nat.sub_eq_zero_of_le hle]
    rfl


/-- Witness for C4: PageRange (3,5) against length 10 resolves to [3, 4] of
length 2 = max(0, 5-3); PageRange (5,3) against length 4 resolves to the
empty sequence since its clamped stop 3 is at most its clamped start 4. -/
theorem pageRange_resolution_spec_witness :
    (PageRange.mk (some 3) (some 5)).resolve 10 = [3, 4] ∧
    (((PageRange.mk (some 3) (some 5)).resolve 10).length : Int) =
      max 0 ((((PageRange.mk (some 3) (some 5)).stopIndex 10 : Int)) -
        (((PageRange.mk (some 3) (some 5)).startIndex 10 : Int))) ∧
    (PageRange.mk (some 5) (some 3)).stopIndex 4 ≤
      (PageRange.mk (some 5) (some 3)).startIndex 4 ∧
    (PageRange.mk (some 5) (some 3)).resolve 4 = [] :=
  ⟨by decide,
   (pageRange_resolution_spec (some 3) (some 5) 10).2.2.1,
   by decide,
   (pageRange_resolution_spec (some 5) (some 3) 4).2.2.2.2 (by decide)⟩

/-- C3: when any source of a merge plan cannot be opened or parsed as a valid
document, pdf_merge raises a descriptive error identifying an offending
source and leaves no output artifact at the given output path; when every
source is readable it writes exactly one output artifact at that path. -/
theorem pdf_merge_failure_success (fs : FileSystem) (out : String)
    (plan : List (String × List PageRange)) :
    ((∃ pr ∈ plan, fs pr.1 = none) →
      ∃ p, fs p = none ∧ p ∈ plan.map Prod.fst ∧
        pdf_merge fs out plan = .error (openErrorMsg p) ∧
        writesOf (pdf_merge fs out plan) = []) ∧
    ((∀ pr ∈ plan, (fs pr.1).isSome) →
      ∃ pages, pdf_merge fs out plan = .ok [(out, pages)] ∧
        writesOf (pdf_merge fs out plan) = [(out, pages)]) := by
  constructor
  · intro hbad
    obtain ⟨p, hp, hmem, herr⟩ := mergeSourcesLoop_err fs plan hbad
    refine ⟨p, hp, hmem, ?_, ?_⟩ <;> simp [pdf_merge, herr [], writesOf]
  · intro hread
    refine ⟨planPages fs plan, ?_, ?_⟩ <;>
      simp [pdf_merge, mergeSourcesLoop_ok fs plan hread [], writesOf]

/-- Witness for C3: merging a plan naming the missing source "gone.pdf"
raises an error naming it and writes nothing, while the same plan over a
filesystem holding every source writes exactly one artifact at "out.pdf". -/
theorem pdf_merge_failure_success_witness :
    (∃ pr ∈ [("a.pdf", ([] : List PageRange)), ("gone.pdf", [])],
      mkFS [("a.pdf", ["a0"])] pr.1 = none) ∧
    (∃ p, mkFS [("a.pdf", ["a0"])] p = none ∧
      p ∈ [("a.pdf", ([] : List PageRange)), ("gone.pdf", [])].map Prod.fst ∧
      pdf_merge (mkFS [("a.pdf", ["a0"])]) "out.pdf"
          [("a.pdf", []), ("gone.pdf", [])] = .error (openErrorMsg p) ∧
      writesOf (pdf_merge (mkFS [("a.pdf", ["a0"])]) "out.pdf"
          [("a.pdf", []), ("gone.pdf", [])]) = []) ∧
    (∀ pr ∈ [("a.pdf", ([] : List PageRange)), ("gone.pdf", [])],
      (mkFS [("a.pdf", ["a0"]), ("gone.pdf", ["g0"])] pr.1).isSome) ∧
    (∃ pages, pdf_merge (mkFS [("a.pdf", ["a0"]), ("gone.pdf", ["g0"])])
        "out.pdf" [("a.pdf", []), ("gone.pdf", [])] = .ok [("out.pdf", pages)] ∧
      writesOf (pdf_merge (mkFS [("a.pdf", ["a0"]), ("gone.pdf", ["g0"])])
        "out.pdf" [("a.pdf", []), ("gone.pdf", [])]) = [("out.pdf", pages)]) :=
  ⟨by decide,
   (pdf_merge_failure_success (mkFS [("a.pdf", ["a0"])]) "out.pdf"
      [("a.pdf", []), ("gone.pdf", [])]).1 (by decide),
   by decide,
   (pdf_merge_failure_success (mkFS [("a.pdf", ["a0"]), ("gone.pdf", ["g0"])])
      "out.pdf" [("a.pdf", []), ("gone.pdf", [])]).2 (by decide)⟩

/-- C5: for every merge plan whose sources all open, pdf_merge emits pages in
exactly plan order — sources in given order, each source's page ranges
resolved and concatenated in list order, an empty range list contributing the
entire source unmodified — with duplicate indices across ranges preserved,
never deduplicated or reordered (the output is exactly planPages). -/
theorem pdf_merge_plan_order (fs : FileSystem) (out : String)
    (plan : List (String × List PageRange))
    (hread : ∀ pr ∈ plan, (fs pr.1).isSome) :
    pdf_merge fs out plan = .ok [(out, planPages fs plan)] := by
  simp [pdf_merge, mergeSourcesLoop_ok fs plan hread []]

/-- Witness for C5: a plan listing source "b.pdf" (all pages) after "a.pdf"
with the range (0,2) given twice yields a's first two pages twice — the
duplicate preserved in range-list order — followed by all of b's pages. -/
theorem pdf_merge_plan_order_witness :
    (∀ pr ∈ [("a.pdf", [PageRange.mk (some 0) (some 2),
                        PageRange.mk (some 0) (some 2)]),
             ("b.pdf", ([] : List PageRange))],
      ((mkFS [("a.pdf", ["a0", "a1", "a2"]), ("b.pdf", ["b0", "b1"])]) pr.1).isSome) ∧
    pdf_merge (mkFS [("a.pdf", ["a0", "a1", "a2"]), ("b.pdf", ["b0", "b1"])])
        "out.pdf"
        [("a.pdf", [PageRange.mk (some 0) (some 2), PageRange.mk (some 0) (some 2)]),
         ("b.pdf", [])] =
      .ok [("out.pdf", ["a0", "a1", "a0", "a1", "b0", "b1"])] :=
  ⟨by decide,
   (pdf_merge_plan_order
      (mkFS [("a.pdf", ["a0", "a1", "a2"]), ("b.pdf", ["b0", "b1"])]) "out.pdf"
      [("a.pdf", [PageRange.mk (some 0) (some 2), PageRange.mk (some 0) (some 2)]),
       ("b.pdf", [])] (by decide)).trans (by rfl)⟩

/-- C10: pdf_merge over an empty source mapping does not fail and still
writes a zero-page artifact at the given path (the merger has no zero-input
guard); the refusal to run on zero inputs lives only in
check_do_not_merge_zero, which fires exactly when the guard flag is set and
the count is at most zero, and which makes the orchestrator exit before any
conversion or merge when there are zero pairs. -/
theorem zero_merge_guard :
    (∀ (fs : FileSystem) (out : String), pdf_merge fs out [] = .ok [(out, [])]) ∧
    (∀ (b : Bool) (n : Int),
      check_do_not_merge_zero b n = true ↔ b = true ∧ n ≤ 0) ∧
    (∀ (fs : FileSystem) (hostFor : SrcFile → Host) (outputDir : String),
      mode_xlsx_pdf_combine fs hostFor outputDir [] [] =
        ([], BatchOutcome.exitedZeroPairs)) := by
  refine ⟨fun fs out => rfl, fun b n => ?_, fun fs hostFor outputDir => rfl⟩
  simp [check_do_not_merge_zero]

theorem renderSheetsLoop_events (fails : List Nat) (l : List Nat)
    (e : HostEvent) (he : e ∈ (renderSheetsLoop fails l).1) :
    ∃ k, e = HostEvent.renderSheet k := by
  induction l with
  | nil => simp [renderSheetsLoop] at he
  | cons i rest ih =>
    by_cases hmem : (i + 1) ∈ fails
    · simp [renderSheetsLoop, hmem] at he
      exact ⟨i + 1, he⟩
    · simp [renderSheetsLoop, hmem] at he
      rcases he with he | he
      · exact ⟨i + 1, he⟩
      · exact ih he

theorem renderSheetsLoop_nofail (l : List Nat) :
    renderSheetsLoop [] l =
      (l.map (fun i => HostEvent.renderSheet (i + 1)), true) := by
  induction l with
  | nil => rfl
  | cons i rest ih => simp [renderSheetsLoop, ih]

theorem renderedRequests_append (a b : List HostEvent) :
    renderedRequests (a ++ b) = renderedRequests a ++ renderedRequests b := by
  simp [renderedRequests]

theorem renderedRequests_comp (l : List Nat) :
    List.filterMap
      ((fun e =>
          match e with
          | HostEvent.renderSheet k => some k
          | _ => none) ∘
        fun i => HostEvent.renderSheet (i + 1)) l =
      List.map (fun i => i + 1) l := by
  induction l with
  | nil => rfl
  | cons i rest ih => simpa using ih

theorem trace_close_suffix (h : Host) (xlsx : String)
    (rs : List PageRange) (ext : Bool)
    (hopen : HostEvent.openWorkbook xlsx ∈ (win_xlsx_to_pdf h xlsx rs ext).1) :
    ∃ pre, (win_xlsx_to_pdf h xlsx rs ext).1 =
      pre ++ [HostEvent.closeWorkbook, HostEvent.setDisplayAlerts false] ++
        (if ext then ([] : List HostEvent) else [HostEvent.quit]) := by
  cases ext <;> cases ha : h.acquireFails <;> cases ho : h.openFails <;>
    simp_all [win_xlsx_to_pdf]
  · exact ⟨HostEvent.acquire :: HostEvent.setVisible false ::
      HostEvent.setDisplayAlerts false :: HostEvent.openWorkbook xlsx ::
      (renderSheetsLoop h.renderFails (resolveAll rs h.nSheets)).1, by simp⟩
  · exact ⟨HostEvent.setVisible false :: HostEvent.setDisplayAlerts false ::
      HostEvent.openWorkbook xlsx ::
      (renderSheetsLoop h.renderFails (resolveAll rs h.nSheets)).1, by simp⟩
  · exact ⟨HostEvent.setVisible false :: HostEvent.setDisplayAlerts false ::
      HostEvent.openWorkbook xlsx ::
      (renderSheetsLoop h.renderFails (resolveAll rs h.nSheets)).1, by simp⟩

theorem trace_empty_iff (h : Host) (xlsx : String)
    (rs : List PageRange) (ext : Bool) :
    (win_xlsx_to_pdf h xlsx rs ext).1 = [] ↔
      ext = false ∧ h.acquireFails = true := by
  cases ext <;> cases ha : h.acquireFails <;> cases ho : h.openFails <;>
    simp [win_xlsx_to_pdf, ha, ho]

theorem trace_alerts_suffix (h : Host) (xlsx : String)
    (rs : List PageRange) (ext : Bool)
    (hne : (win_xlsx_to_pdf h xlsx rs ext).1 ≠ []) :
    ∃ pre, (win_xlsx_to_pdf h xlsx rs ext).1 =
      pre ++ [HostEvent.setDisplayAlerts false] ++
        (if ext then ([] : List HostEvent) else [HostEvent.quit]) := by
  cases ext <;> cases ha : h.acquireFails <;> cases ho : h.openFails <;>
    simp_all [win_xlsx_to_pdf]
  · exact ⟨HostEvent.acquire :: HostEvent.setVisible false ::
      HostEvent.setDisplayAlerts false :: HostEvent.openWorkbook xlsx ::
      ((renderSheetsLoop h.renderFails (resolveAll rs h.nSheets)).1 ++
        [HostEvent.closeWorkbook]), by simp⟩
  · exact ⟨[HostEvent.acquire, HostEvent.setVisible false,
      HostEvent.setDisplayAlerts false], by simp⟩
  · exact ⟨HostEvent.setVisible false :: HostEvent.setDisplayAlerts false ::
      HostEvent.openWorkbook xlsx ::
      ((renderSheetsLoop h.renderFails (resolveAll rs h.nSheets)).1 ++
        [HostEvent.closeWorkbook]), by simp⟩
  · exact ⟨[HostEvent.setVisible false, HostEvent.setDisplayAlerts false], by simp⟩
  · exact ⟨HostEvent.setVisible false :: HostEvent.setDisplayAlerts false ::
      HostEvent.openWorkbook xlsx ::
      ((renderSheetsLoop h.renderFails (resolveAll rs h.nSheets)).1 ++
        [HostEvent.closeWorkbook]), by simp⟩
  · exact ⟨[HostEvent.setVisible false, HostEvent.setDisplayAlerts false], by simp⟩

/-- C2: on every exit path of win_xlsx_to_pdf, the cleanup contract of the
finally block holds.  The only path with no host interaction at all is a
failed internal dispatch (nothing was acquired, so nothing needs cleanup);
on every other path — success, workbook-open failure, or a failing sheet
render — DisplayAlerts is set back to off before the Quit that releases an
internally dispatched host (and before returning a caller-supplied one); and
whenever the workbook was opened, it is closed and then DisplayAlerts
restored to off before that release. -/
theorem workbook_closed_alerts_restored (h : Host) (xlsx : String)
    (rs : List PageRange) (ext : Bool) :
    ((win_xlsx_to_pdf h xlsx rs ext).1 = [] ↔
      ext = false ∧ h.acquireFails = true) ∧
    ((win_xlsx_to_pdf h xlsx rs ext).1 ≠ [] →
      ∃ pre, (win_xlsx_to_pdf h xlsx rs ext).1 =
        pre ++ [HostEvent.setDisplayAlerts false] ++
          (if ext then ([] : List HostEvent) else [HostEvent.quit])) ∧
    (HostEvent.openWorkbook xlsx ∈ (win_xlsx_to_pdf h xlsx rs ext).1 →
      ∃ pre, (win_xlsx_to_pdf h xlsx rs ext).1 =
        pre ++ [HostEvent.closeWorkbook, HostEvent.setDisplayAlerts false] ++
          (if ext then ([] : List HostEvent) else [HostEvent.quit])) :=
  ⟨trace_empty_iff h xlsx rs ext,
   fun hne => trace_alerts_suffix h xlsx rs ext hne,
   fun hopen => trace_close_suffix h xlsx rs ext hopen⟩

/-- Witness for C2: on the workbook-open-failure exit path with an internally
dispatched host the trace is non-empty and still ends with DisplayAlerts off
followed by Quit (with no workbook ever opened); on the success path the
workbook is opened and the trace ends with closeWorkbook, DisplayAlerts off,
Quit. -/
theorem workbook_closed_alerts_restored_witness :
    (win_xlsx_to_pdf exHostOpenFails "w/A.xlsx" DEFAULT_XLSX_SHEETS false).1 ≠ [] ∧
    (∃ pre,
      (win_xlsx_to_pdf exHostOpenFails "w/A.xlsx" DEFAULT_XLSX_SHEETS false).1 =
        pre ++ [HostEvent.setDisplayAlerts false] ++ [HostEvent.quit]) ∧
    HostEvent.openWorkbook "w/A.xlsx" ∉
      (win_xlsx_to_pdf exHostOpenFails "w/A.xlsx" DEFAULT_XLSX_SHEETS false).1 ∧
    HostEvent.openWorkbook "w/A.xlsx" ∈
      (win_xlsx_to_pdf exHostGood "w/A.xlsx" DEFAULT_XLSX_SHEETS false).1 ∧
    (∃ pre, (win_xlsx_to_pdf exHostGood "w/A.xlsx" DEFAULT_XLSX_SHEETS false).1 =
      pre ++ [HostEvent.closeWorkbook, HostEvent.setDisplayAlerts false] ++
        [HostEvent.quit]) := by
  refine ⟨by decide, ?_, by decide, by decide, ?_⟩
  · obtain ⟨pre, hpre⟩ := (workbook_closed_alerts_restored exHostOpenFails
      "w/A.xlsx" DEFAULT_XLSX_SHEETS false).2.1 (by decide)
    exact ⟨pre, by simpa using hpre⟩
  · obtain ⟨pre, hpre⟩ := (workbook_closed_alerts_restored exHostGood
      "w/A.xlsx" DEFAULT_XLSX_SHEETS false).2.2 (by decide)
    exact ⟨pre, by simpa using hpre⟩

/-- C6: when the host reports no failures, the converter requests exactly the
resolved 0-based sheet indices, each translated to the 1-based host index
i + 1, in order. -/
theorem sheet_indices_one_based (h : Host) (xlsx : String)
    (rs : List PageRange) (ext : Bool)
    (ha : h.acquireFails = false) (ho : h.openFails = false)
    (hr : h.renderFails = []) :
    renderedRequests (win_xlsx_to_pdf h xlsx rs ext).1 =
      (resolveAll rs h.nSheets).map (fun i => i + 1) := by
  cases ext <;>
    simp [win_xlsx_to_pdf, ha, ho, hr, renderSheetsLoop_nofail,
      renderedRequests_append, renderedRequests] <;>
    exact renderedRequests_comp _

/-- Witness for C6: PageRange (3,5) applied to a 10-sheet spreadsheet
resolves to the 0-based indices [3, 4] and the host is asked to render the
1-based indices [4, 5]. -/
theorem sheet_indices_one_based_witness :
    resolveAll DEFAULT_XLSX_SHEETS 10 = [3, 4] ∧
    renderedRequests
      (win_xlsx_to_pdf exHostGood "w/A.xlsx" DEFAULT_XLSX_SHEETS true).1 = [4, 5] :=
  ⟨by decide,
   (sheet_indices_one_based exHostGood "w/A.xlsx" DEFAULT_XLSX_SHEETS true
      rfl rfl rfl).trans (by decide)⟩

/-- C7: with no caller-supplied host handle, win_xlsx_to_pdf dispatches one
and Quits it on every exit path on which the dispatch succeeded; with a
caller-supplied handle it never Quits, on any path. -/
theorem host_lifecycle (h : Host) (xlsx : String) (rs : List PageRange) :
    (HostEvent.acquire ∈ (win_xlsx_to_pdf h xlsx rs false).1 →
      HostEvent.quit ∈ (win_xlsx_to_pdf h xlsx rs false).1) ∧
    HostEvent.quit ∉ (win_xlsx_to_pdf h xlsx rs true).1 := by
  constructor
  · intro hacq
    cases ha : h.acquireFails <;> cases ho : h.openFails <;>
      simp_all [win_xlsx_to_pdf]
  · intro hq
    cases ho : h.openFails <;> simp_all [win_xlsx_to_pdf]
    rcases renderSheetsLoop_events _ _ _ hq with ⟨k, hk⟩
    simp at hk

/-- Witness for C7: a successful internally dispatched conversion Quits its
host, while the same conversion with a caller-supplied host does not. -/
theorem host_lifecycle_witness :
    HostEvent.quit ∈
      (win_xlsx_to_pdf exHostGood "w/A.xlsx" DEFAULT_XLSX_SHEETS false).1 ∧
    HostEvent.quit ∉
      (win_xlsx_to_pdf exHostGood "w/A.xlsx" DEFAULT_XLSX_SHEETS true).1 :=
  ⟨(host_lifecycle exHostGood "w/A.xlsx" DEFAULT_XLSX_SHEETS).1 (by decide),
   (host_lifecycle exHostGood "w/A.xlsx" DEFAULT_XLSX_SHEETS).2⟩

theorem dedup_length_eq_iff (l : List String) :
    l.dedup.length = l.length ↔ l.Nodup := by
  constructor
  · intro h
    have heq := List.Sublist.eq_of_length (List.dedup_sublist l) h
    rw [← heq]
    exact l.nodup_dedup
  · intro h
    rw [List.dedup_eq_self.mpr h]

theorem lastWithStem_spec (files : List SrcFile) (s : String) (f : SrcFile)
    (h : lastWithStem files s = some f) : f.stem = s ∧ f ∈ files := by
  unfold lastWithStem at h
  have hp := List.find?_some h
  have hm := List.mem_of_find?_eq_some h
  rw [List.mem_reverse] at hm
  exact ⟨by simpa using hp, hm⟩

theorem lastWithStem_isSome (files : List SrcFile) (s : String)
    (h : s ∈ stemsOf files) : (lastWithStem files s).isSome := by
  unfold lastWithStem
  rw [List.find?_isSome]
  rcases List.mem_map.mp h with ⟨f, hf, hst⟩
  exact ⟨f, List.mem_reverse.mpr hf, by simp [hst]⟩

theorem filterMap_stems (F : String → Option (SrcFile × SrcFile))
    (l : List String)
    (hF : ∀ s ∈ l, ∃ pr, F s = some pr ∧ pr.1.stem = s) :
    (l.filterMap F).map (fun pr => pr.1.stem) = l := by
  induction l with
  | nil => rfl
  | cons s rest ih =>
    obtain ⟨pr, hpr, hst⟩ := hF s (List.mem_cons_self s rest)
    rw [List.filterMap_cons_some hpr]
    simp only [List.map_cons, hst]
    rw [ih (fun t ht => hF t (List.mem_cons_of_mem _ ht))]

/-- C8: when either extension group contains two files with the same stem,
gather_xlsx_pdf_pairs raises DuplicateFileNames, returning no pairing at all,
and the orchestrator exits with nothing attempted — before any conversion. -/
theorem duplicate_stems_fatal (fs : FileSystem) (hostFor : SrcFile → Host)
    (outputDir : String) (pdfs xlsxs : List SrcFile)
    (hdup : ¬ (stemsOf pdfs).Nodup ∨ ¬ (stemsOf xlsxs).Nodup) :
    gather_xlsx_pdf_pairs pdfs xlsxs = .error () ∧
    mode_xlsx_pdf_combine fs hostFor outputDir pdfs xlsxs =
      ([], BatchOutcome.exitedDuplicateNames) := by
  have hlen : (stemsOf pdfs).length = pdfs.length := List.length_map _ _
  have hlenx : (stemsOf xlsxs).length = xlsxs.length := List.length_map _ _
  have hne : pdfs.length ≠ (stemsOf pdfs).dedup.length ∨
      xlsxs.length ≠ (stemsOf xlsxs).dedup.length := by
    rcases hdup with hd | hd
    · exact Or.inl (fun he =>
        hd ((dedup_length_eq_iff _).mp (he.symm.trans hlen.symm)))
    · exact Or.inr (fun he =>
        hd ((dedup_length_eq_iff _).mp (he.symm.trans hlenx.symm)))
  have hguard : (pdfs.length != (stemsOf pdfs).dedup.length ||
      xlsxs.length != (stemsOf xlsxs).dedup.length) = true := by
    rcases hne with hne | hne <;> simp [bne_iff_ne, hne]
  have hg : gather_xlsx_pdf_pairs pdfs xlsxs = .error () := by
    simp only [gather_xlsx_pdf_pairs]
    rw [hguard]
    rfl
  refine ⟨hg, ?_⟩
  simp only [mode_xlsx_pdf_combine]
  rw [hg]

/-- Witness for C8: two pdfs both stemmed X, in different directories, make
pairing fail and make the orchestrator exit with no conversion attempted. -/
theorem duplicate_stems_fatal_witness :
    ¬ (stemsOf [SrcFile.mk "a" "X", SrcFile.mk "b" "X"]).Nodup ∧
    gather_xlsx_pdf_pairs [SrcFile.mk "a" "X", SrcFile.mk "b" "X"] [] =
      .error () ∧
    mode_xlsx_pdf_combine exFS exHostFor "out"
        [SrcFile.mk "a" "X", SrcFile.mk "b" "X"] [] =
      ([], BatchOutcome.exitedDuplicateNames) :=
  ⟨by decide,
   (duplicate_stems_fatal exFS exHostFor "out" _ _ (Or.inl (by decide))).1,
   (duplicate_stems_fatal exFS exHostFor "out" _ _ (Or.inl (by decide))).2⟩

theorem stemIntersection_mem (pdfs xlsxs : List SrcFile) (s : String) :
    s ∈ stemIntersection pdfs xlsxs ↔
      s ∈ stemsOf pdfs ∧ s ∈ stemsOf xlsxs := by
  simp [stemIntersection, List.mem_filter, List.mem_dedup]

theorem stemIntersection_nodup (pdfs xlsxs : List SrcFile) :
    (stemIntersection pdfs xlsxs).Nodup :=
  (List.nodup_dedup _).filter _

theorem stemSymmDiff_mem (pdfs xlsxs : List SrcFile) (s : String) :
    s ∈ stemSymmDiff pdfs xlsxs ↔
      ((s ∈ stemsOf pdfs ∧ s ∉ stemsOf xlsxs) ∨
       (s ∈ stemsOf xlsxs ∧ s ∉ stemsOf pdfs)) := by
  simp [stemSymmDiff, List.mem_filter, List.mem_dedup]

theorem pairForStem_some (pdfs xlsxs : List SrcFile) (s : String)
    (hps : s ∈ stemsOf pdfs) (hxs : s ∈ stemsOf xlsxs) :
    ∃ d x, pairForStem pdfs xlsxs s = some (d, x) ∧
      d.stem = s ∧ x.stem = s ∧ d ∈ pdfs ∧ x ∈ xlsxs := by
  obtain ⟨d, hd⟩ := Option.isSome_iff_exists.mp (lastWithStem_isSome pdfs s hps)
  obtain ⟨x, hx2⟩ := Option.isSome_iff_exists.mp (lastWithStem_isSome xlsxs s hxs)
  obtain ⟨hds, hdm⟩ := lastWithStem_spec pdfs s d hd
  obtain ⟨hxs2, hxm⟩ := lastWithStem_spec xlsxs s x hx2
  exact ⟨d, x, by simp [pairForStem, hd, hx2], hds, hxs2, hdm, hxm⟩

/-- C9: on a scan with no duplicate stems, pairing succeeds, pairs exactly
the stems present in both extension groups (one pair per such stem, matching
a pdf and an xlsx with that shared stem), and reports as unmatched exactly
the symmetric difference of the two stem sets. -/
theorem pairing_characterization (pdfs xlsxs : List SrcFile)
    (hp : (stemsOf pdfs).Nodup) (hx : (stemsOf xlsxs).Nodup) :
    ∃ pairs unmatched,
      gather_xlsx_pdf_pairs pdfs xlsxs = .ok (pairs, unmatched) ∧
      (∀ pr ∈ pairs, pr.1 ∈ pdfs ∧ pr.2 ∈ xlsxs ∧ pr.1.stem = pr.2.stem) ∧
      (pairs.map (fun pr => pr.1.stem)).Nodup ∧
      (∀ s, s ∈ pairs.map (fun pr => pr.1.stem) ↔
        s ∈ stemsOf pdfs ∧ s ∈ stemsOf xlsxs) ∧
      (∀ s, s ∈ unmatched ↔
        ((s ∈ stemsOf pdfs ∧ s ∉ stemsOf xlsxs) ∨
         (s ∈ stemsOf xlsxs ∧ s ∉ stemsOf pdfs))) := by
  have hguard : (pdfs.length != (stemsOf pdfs).dedup.length ||
      xlsxs.length != (stemsOf xlsxs).dedup.length) = false := by
    have h1 : (stemsOf pdfs).dedup.length = pdfs.length :=
      ((dedup_length_eq_iff _).mpr hp).trans (List.length_map _ _)
    have h2 : (stemsOf xlsxs).dedup.length = xlsxs.length :=
      ((dedup_length_eq_iff _).mpr hx).trans (List.length_map _ _)
    simp [h1, h2]
  have hsome : ∀ s ∈ stemIntersection pdfs xlsxs,
      ∃ pr, pairForStem pdfs xlsxs s = some pr ∧ pr.1.stem = s := by
    intro s hs
    rcases (stemIntersection_mem pdfs xlsxs s).mp hs with ⟨h1, h2⟩
    obtain ⟨d, x, hpr, hds, _, _, _⟩ := pairForStem_some pdfs xlsxs s h1 h2
    exact ⟨(d, x), hpr, hds⟩
  have hmapstems :
      (((stemIntersection pdfs xlsxs).filterMap (pairForStem pdfs xlsxs)).map
        (fun pr => pr.1.stem)) = stemIntersection pdfs xlsxs :=
    filterMap_stems _ _ hsome
  refine ⟨(stemIntersection pdfs xlsxs).filterMap (pairForStem pdfs xlsxs),
    stemSymmDiff pdfs xlsxs, ?_, ?_, ?_, ?_, ?_⟩
  · simp only [gather_xlsx_pdf_pairs]
    rw [hguard]
    rfl
  · intro pr hpr
    rcases List.mem_filterMap.mp hpr with ⟨s, hs, hF⟩
    rcases (stemIntersection_mem pdfs xlsxs s).mp hs with ⟨h1, h2⟩
    obtain ⟨d, x, hsome2, hds, hxs2, hdm, hxm⟩ :=
      pairForStem_some pdfs xlsxs s h1 h2
    rw [hsome2, Option.some_inj] at hF
    rw [← hF]
    exact ⟨hdm, hxm, hds.trans hxs2.symm⟩
  · rw [hmapstems]
    exact stemIntersection_nodup pdfs xlsxs
  · intro s
    rw [hmapstems]
    exact stemIntersection_mem pdfs xlsxs s
  · intro s
    exact stemSymmDiff_mem pdfs xlsxs s

/-- Witness for C9: a directory with Jan.pdf, Jan.xlsx and Feb.pdf yields
exactly one pair (Jan) and the single unmatched stem Feb. -/
theorem pairing_characterization_witness :
    (stemsOf [SrcFile.mk "w" "Jan", SrcFile.mk "w" "Feb"]).Nodup ∧
    (stemsOf [SrcFile.mk "w" "Jan"]).Nodup ∧
    gather_xlsx_pdf_pairs [SrcFile.mk "w" "Jan", SrcFile.mk "w" "Feb"]
        [SrcFile.mk "w" "Jan"] =
      .ok ([(SrcFile.mk "w" "Jan", SrcFile.mk "w" "Jan")], ["Feb"]) ∧
    (∃ pairs unmatched,
      gather_xlsx_pdf_pairs [SrcFile.mk "w" "Jan", SrcFile.mk "w" "Feb"]
          [SrcFile.mk "w" "Jan"] = .ok (pairs, unmatched) ∧
      (∀ pr ∈ pairs, pr.1 ∈ [SrcFile.mk "w" "Jan", SrcFile.mk "w" "Feb"] ∧
        pr.2 ∈ [SrcFile.mk "w" "Jan"] ∧ pr.1.stem = pr.2.stem) ∧
      (pairs.map (fun pr => pr.1.stem)).Nodup ∧
      (∀ s, s ∈ pairs.map (fun pr => pr.1.stem) ↔
        s ∈ stemsOf [SrcFile.mk "w" "Jan", SrcFile.mk "w" "Feb"] ∧
        s ∈ stemsOf [SrcFile.mk "w" "Jan"]) ∧
      (∀ s, s ∈ unmatched ↔
        ((s ∈ stemsOf [SrcFile.mk "w" "Jan", SrcFile.mk "w" "Feb"] ∧
          s ∉ stemsOf [SrcFile.mk "w" "Jan"]) ∨
         (s ∈ stemsOf [SrcFile.mk "w" "Jan"] ∧
          s ∉ stemsOf [SrcFile.mk "w" "Jan", SrcFile.mk "w" "Feb"])))) :=
  ⟨by decide, by decide, by rfl,
   pairing_characterization _ _ (by decide) (by decide)⟩

/-- Counterexample to C1 as stated: two matched pairs A and B; the host
fails while converting A's spreadsheet (its workbook cannot be opened).  The
orchestrator does not mark the pair failed and continue: the translated host
error propagates out of the per-pair loop, the batch ends aborted, and B's
conversion is never attempted — one pair's host failure aborts the whole
batch. -/
theorem host_failure_aborts_batch_cex :
    (win_xlsx_to_pdf (exHostFor exFileA) "w/A.xlsx" DEFAULT_XLSX_SHEETS true).2 =
      .error openWorkbookErrorMsg ∧
    gather_xlsx_pdf_pairs [exFileA, exFileB] [exFileA, exFileB] =
      .ok ([(exFileA, exFileA), (exFileB, exFileB)], []) ∧
    mode_xlsx_pdf_combine exFS exHostFor "out" [exFileA, exFileB]
        [exFileA, exFileB] =
      (["w/A.xlsx"], BatchOutcome.aborted openWorkbookErrorMsg) :=
  ⟨by rfl, by rfl, by rfl⟩

/-- C1 amended: when the host fails while converting the spreadsheet of the
first pair the per-pair loop reaches, the translated error propagates
unhandled out of the loop: the batch result is that error, no remaining pair
is processed, and no per-pair failure status is recorded. -/
theorem host_failure_aborts_remaining (fs : FileSystem)
    (hostFor : SrcFile → Host) (outputDir : String) (d x : SrcFile)
    (rest : List (SrcFile × SrcFile)) (e : String)
    (hfail : (win_xlsx_to_pdf (hostFor x) (x.withExt ".xlsx")
        DEFAULT_XLSX_SHEETS true).2 = .error e) :
    runPairsLoop fs hostFor outputDir ((d, x) :: rest) =
      ([x.withExt ".xlsx"], .error e) := by
  simp only [runPairsLoop, merge_pdf_xlsx, hfail]

/-- Witness for the amended C1: with the host failing on pair A's workbook,
the loop over pairs A then B stops with A's error after attempting only A. -/
theorem host_failure_aborts_remaining_witness :
    (win_xlsx_to_pdf (exHostFor exFileA) (exFileA.withExt ".xlsx")
        DEFAULT_XLSX_SHEETS true).2 = .error openWorkbookErrorMsg ∧
    runPairsLoop exFS exHostFor "out" [(exFileA, exFileA), (exFileB, exFileB)] =
      (["w/A.xlsx"], .error openWorkbookErrorMsg) :=
  ⟨by rfl,
   (host_failure_aborts_remaining exFS exHostFor "out" exFileA exFileA
      [(exFileB, exFileB)] openWorkbookErrorMsg (by rfl)).trans (by rfl)⟩

end PDFExtractCombiner
